import Mathlib

/-!
Verification of the Load Management System monitoring engine.

The definitions below are a shallow embedding of the Python sources
`src/app.py` (Streamlit variant, the primary implementation) and
`src/loadf1.py` (Tkinter variant).  Machine floats are modelled as
rationals; the random sample generator is abstracted by quantifying over
all raw readings before the clamping step that the code applies to them.
-/

/-- Severity levels of logged alerts (the `level` argument of `log_alert`). -/
inductive Severity
  | info
  | warning
  | error
deriving DecidableEq, Repr

/-- One load profile entry, from `LoadManagementSystem.__init__` in app.py:
`{"active": bool, "current": float, "power_factor": float}`. -/
structure LoadProfile where
  active : Bool
  current : ℚ
  power_factor : ℚ
deriving DecidableEq, Repr

/-- `MAX_DATA_POINTS = 200` (app.py line 16). -/
def MAX_DATA_POINTS : Nat := 200

/-- `UPDATE_INTERVAL = 0.5` seconds (app.py line 17).  The loadf1.py variant
uses `UPDATE_INTERVAL = 500` milliseconds, the same nominal half second. -/
def UPDATE_INTERVAL : ℚ := 1/2

/-- A `collections.deque` with `maxlen = cap` that already holds `cap`
elements drops its oldest (leftmost) element on `append`; below capacity it
appends normally. -/
def dequePush (cap : Nat) (xs : List ℚ) (x : ℚ) : List ℚ :=
  if cap ≤ xs.length then xs.tail ++ [x] else xs ++ [x]

/-- One electrical reading as produced by `simulate_realistic_data`. -/
structure Reading where
  voltage : ℚ
  current : ℚ
  power : ℚ
deriving DecidableEq, Repr

/-- The final clamping step of `simulate_realistic_data` (app.py lines
797-799): `voltage = max(180, min(270, ...))`, `current = max(0, min(600,
...))`, `power = max(0, min(150000, ...))`. -/
def clampReading (voltage current power : ℚ) : Reading :=
  { voltage := max 180 (min 270 voltage)
    current := max 0 (min 600 current)
    power := max 0 (min 150000 power) }

/-- The persisted configuration dictionary: each field is `some v` when the
key is present in the JSON file and `none` when it is missing.  Keys are
those written by `save_config` (app.py lines 984-997). -/
structure SavedConfig where
  voltage_threshold : Option ℚ
  current_threshold : Option ℚ
  power_threshold : Option ℚ
  energy_budget : Option ℚ
  tariff_rates : Option (ℚ × ℚ × ℚ)
  load_profiles : Option (List (String × LoadProfile))
  logging_enabled : Option Bool
  alert_sounds : Option Bool
  voice_alerts : Option Bool
  alert_cooldown : Option ℚ
deriving DecidableEq, Repr

/-- A configuration file with every key missing. -/
def emptySavedConfig : SavedConfig :=
  { voltage_threshold := none, current_threshold := none,
    power_threshold := none, energy_budget := none, tariff_rates := none,
    load_profiles := none, logging_enabled := none, alert_sounds := none,
    voice_alerts := none, alert_cooldown := none }

/-- The mutable state of `LoadManagementSystem` that the engine claims are
about (buffers, energy accumulator, profiles, thresholds, tariff, settings,
cooldown), from `__init__` in app.py. -/
structure SystemState where
  load_profiles : List (String × LoadProfile)
  voltage_data : List ℚ
  current_data : List ℚ
  power_data : List ℚ
  energy_data : List ℚ
  energy_consumption : ℚ
  voltage_threshold : ℚ
  current_threshold : ℚ
  power_threshold : ℚ
  energy_budget : ℚ
  tariff_peak : ℚ
  tariff_off_peak : ℚ
  tariff_shoulder : ℚ
  logging_enabled : Bool
  alert_sounds : Bool
  voice_alerts : Bool
  alert_cooldown : ℚ
deriving DecidableEq, Repr

/-- The state built by `LoadManagementSystem.__init__` (app.py lines 20-66):
buffers pre-filled with 200 baseline samples (220 V, 50 A, 11000 W, 0 kWh),
default thresholds 250/150/30000/1000, tariff 5.75/3.50/4.25, cooldown 10 s. -/
def initState : SystemState :=
  { load_profiles :=
      [("Lighting", { active := true, current := 50, power_factor := 9/10 }),
       ("HVAC", { active := false, current := 200, power_factor := 17/20 }),
       ("Computers", { active := true, current := 80, power_factor := 19/20 }),
       ("Industrial", { active := false, current := 400, power_factor := 4/5 })]
    voltage_data := List.replicate MAX_DATA_POINTS 220
    current_data := List.replicate MAX_DATA_POINTS 50
    power_data := List.replicate MAX_DATA_POINTS 11000
    energy_data := List.replicate MAX_DATA_POINTS 0
    energy_consumption := 0
    voltage_threshold := 250
    current_threshold := 150
    power_threshold := 30000
    energy_budget := 1000
    tariff_peak := 23/4
    tariff_off_peak := 7/2
    tariff_shoulder := 17/4
    logging_enabled := true
    alert_sounds := true
    voice_alerts := false
    alert_cooldown := 10 }

/-- The per-tick energy increment computed by `data_collection_loop`
(app.py line 736): `energy_this_interval = (data["power"] / 1000) *
(UPDATE_INTERVAL / 3600)`.  loadf1.py line 487 computes the same quantity
as `(data["power"] / 1000) * (UPDATE_INTERVAL / 3600000)` with the
interval in milliseconds. -/
def energy_this_interval (power : ℚ) : ℚ :=
  (power / 1000) * (UPDATE_INTERVAL / 3600)

/-- Modelled from the spec: the energy increment formula claimed in section
4.3, `incrementKWh = (power_W / 1000) * (elapsedSeconds / 3600)` where
`elapsedSeconds` is the actual wall-clock delta since the previous tick.
Kept separate from `energy_this_interval` (the code) for comparison. -/
def specIncrementKWh (power_W elapsedSeconds : ℚ) : ℚ :=
  (power_W / 1000) * (elapsedSeconds / 3600)

/-- One iteration of `data_collection_loop` (app.py lines 724-753) acting
on the stored data: append the reading to the three measurement deques,
accumulate the energy increment, and append the new cumulative energy to
the energy deque.  (Alert checking and CSV logging touch no field modelled
here.) -/
def data_collection_tick (st : SystemState) (data : Reading) : SystemState :=
  let new_energy := st.energy_consumption + energy_this_interval data.power
  { st with
    voltage_data := dequePush MAX_DATA_POINTS st.voltage_data data.voltage
    current_data := dequePush MAX_DATA_POINTS st.current_data data.current
    power_data := dequePush MAX_DATA_POINTS st.power_data data.power
    energy_consumption := new_energy
    energy_data := dequePush MAX_DATA_POINTS st.energy_data new_energy }

/-- `clear_data` (app.py lines 1035-1056): re-seed the four deques with 200
baseline samples (230 V, 50 A, 11500 W, 0 kWh) and reset the accumulator
to zero. -/
def clear_data (st : SystemState) : SystemState :=
  { st with
    voltage_data := List.replicate MAX_DATA_POINTS 230
    current_data := List.replicate MAX_DATA_POINTS 50
    power_data := List.replicate MAX_DATA_POINTS 11500
    energy_data := List.replicate MAX_DATA_POINTS 0
    energy_consumption := 0 }

/-- Number of load profiles currently active (the `shutdown_count` computed
by `emergency_shutdown`). -/
def activeCount (ps : List (String × LoadProfile)) : Nat :=
  (ps.filter fun q => q.2.active).length

/-- `emergency_shutdown` of app.py (lines 912-924): deactivate every active
load, counting them, then log exactly one error-level alert whose message
embeds the count.  Returns the new profiles and the logged alert events. -/
def emergency_shutdown (ps : List (String × LoadProfile)) :
    List (String × LoadProfile) × List (Severity × String) :=
  (ps.map fun q => (q.1, { q.2 with active := false }),
   [(Severity.error,
     "EMERGENCY SHUTDOWN: " ++ toString (activeCount ps) ++ " loads deactivated")])

/-- `emergency_shutdown` of loadf1.py (lines 737-744): calls `toggle_load`
on each active load, which logs an info-level message per load, then logs
one error-level alert with the fixed message "EMERGENCY SHUTDOWN ACTIVATED"
that does not mention any count. -/
def loadf1_emergency_shutdown (ps : List (String × LoadProfile)) :
    List (String × LoadProfile) × List (Severity × String) :=
  (ps.map fun q => (q.1, { q.2 with active := false }),
   ((ps.filter fun q => q.2.active).map
      fun q => (Severity.info, "Load " ++ q.1 ++ " turned OFF")) ++
     [(Severity.error, "EMERGENCY SHUTDOWN ACTIVATED")])

/-- The messages of the error-severity events in an alert log. -/
def errorMessages (l : List (Severity × String)) : List String :=
  (l.filter fun e => decide (e.1 = Severity.error)).map fun e => e.2

/-- `reset_to_defaults` (app.py lines 674-682): restore the default
thresholds, tariff rates and cooldown; buffers and energy are untouched. -/
def reset_to_defaults (st : SystemState) : SystemState :=
  { st with
    voltage_threshold := 250
    current_threshold := 150
    power_threshold := 30000
    energy_budget := 1000
    tariff_peak := 23/4
    tariff_off_peak := 7/2
    tariff_shoulder := 17/4
    alert_cooldown := 10 }

/-- `save_config` (app.py lines 984-1004): write every configuration field
to the JSON dictionary. -/
def save_config (st : SystemState) : SavedConfig :=
  { voltage_threshold := some st.voltage_threshold
    current_threshold := some st.current_threshold
    power_threshold := some st.power_threshold
    energy_budget := some st.energy_budget
    tariff_rates := some (st.tariff_peak, st.tariff_off_peak, st.tariff_shoulder)
    load_profiles := some st.load_profiles
    logging_enabled := some st.logging_enabled
    alert_sounds := some st.alert_sounds
    voice_alerts := some st.voice_alerts
    alert_cooldown := some st.alert_cooldown }

/-- `load_config` (app.py lines 1006-1033): each field is read with
`config.get(key, default)`; the defaults are 250 / 150 / 30000 / 1000 for
the thresholds, the prior in-memory values for `tariff_rates` and
`load_profiles`, `True` / `True` / `True` for the three boolean settings
and 10 for the cooldown.  No value is range-checked or clamped. -/
def load_config (st : SystemState) (config : SavedConfig) : SystemState :=
  let tariff := config.tariff_rates.getD
    (st.tariff_peak, st.tariff_off_peak, st.tariff_shoulder)
  { st with
    voltage_threshold := config.voltage_threshold.getD 250
    current_threshold := config.current_threshold.getD 150
    power_threshold := config.power_threshold.getD 30000
    energy_budget := config.energy_budget.getD 1000
    tariff_peak := tariff.1
    tariff_off_peak := tariff.2.1
    tariff_shoulder := tariff.2.2
    load_profiles := config.load_profiles.getD st.load_profiles
    logging_enabled := config.logging_enabled.getD true
    alert_sounds := config.alert_sounds.getD true
    voice_alerts := config.voice_alerts.getD true
    alert_cooldown := config.alert_cooldown.getD 10 }

/-- Update one named profile field, as the `update_load_status` callback
does through `self.load_profiles[load_name]["active"] = ...`. -/
def setProfileActive (ps : List (String × LoadProfile)) (name : String)
    (b : Bool) : List (String × LoadProfile) :=
  ps.map fun q => if q.1 = name then (q.1, { q.2 with active := b }) else q

/-- Update one named profile current (`update_load_current`). -/
def setProfileCurrent (ps : List (String × LoadProfile)) (name : String)
    (c : ℚ) : List (String × LoadProfile) :=
  ps.map fun q => if q.1 = name then (q.1, { q.2 with current := c }) else q

/-- Update one named profile power factor (`update_load_pf`). -/
def setProfilePF (ps : List (String × LoadProfile)) (name : String)
    (pf : ℚ) : List (String × LoadProfile) :=
  ps.map fun q => if q.1 = name then (q.1, { q.2 with power_factor := pf }) else q

/-- The state-changing operations of the system.  A `tick` carries the raw
(pre-clamp) simulated voltage, current and power, abstracting the random
generator. -/
inductive Op
  | tick (v c p : ℚ)
  | clearData
  | emergencyShutdown
  | setLoadActive (name : String) (b : Bool)
  | setLoadCurrent (name : String) (c : ℚ)
  | setLoadPowerFactor (name : String) (pf : ℚ)
  | resetToDefaults
  | loadConfig (cfg : SavedConfig)
deriving DecidableEq, Repr

/-- Apply one operation to the system state. -/
def applyOp (st : SystemState) (op : Op) : SystemState :=
  match op with
  | .tick v c p => data_collection_tick st (clampReading v c p)
  | .clearData => clear_data st
  | .emergencyShutdown =>
      { st with load_profiles := (emergency_shutdown st.load_profiles).1 }
  | .setLoadActive name b =>
      { st with load_profiles := setProfileActive st.load_profiles name b }
  | .setLoadCurrent name c =>
      { st with load_profiles := setProfileCurrent st.load_profiles name c }
  | .setLoadPowerFactor name pf =>
      { st with load_profiles := setProfilePF st.load_profiles name pf }
  | .resetToDefaults => reset_to_defaults st
  | .loadConfig cfg => load_config st cfg

/-- The state reached from construction by a sequence of operations. -/
def runOps (ops : List Op) : SystemState :=
  ops.foldl applyOp initState

/-- Python dictionary assignment `m[k] = v` on an association list. -/
def dictSet (m : List (String × ℚ)) (k : String) (v : ℚ) :
    List (String × ℚ) :=
  match m with
  | [] => [(k, v)]
  | (k1, v1) :: rest =>
      if k1 = k then (k, v) :: rest else (k1, v1) :: dictSet rest k v

/-- `should_trigger_alert` (app.py lines 856-867): if this alert kind has no
recorded timestamp, record `current_time` and fire; otherwise fire exactly
when `current_time - last >= alert_cooldown`, updating the timestamp on
firing; a suppressed alert leaves the dictionary unchanged. -/
def should_trigger_alert (alert_cooldown : ℚ) (last_alert_time : List (String × ℚ))
    (alert_type : String) (current_time : ℚ) : Bool × List (String × ℚ) :=
  match last_alert_time.lookup alert_type with
  | none => (true, dictSet last_alert_time alert_type current_time)
  | some t =>
      if alert_cooldown ≤ current_time - t then
        (true, dictSet last_alert_time alert_type current_time)
      else
        (false, last_alert_time)

/-- Run `should_trigger_alert` for one alert kind at each of the given
times (a perpetually violated threshold evaluated once per tick),
collecting the times at which the alert fired. -/
def cooldownRun (alert_cooldown : ℚ) (alert_type : String) (times : List ℚ) :
    List ℚ × List (String × ℚ) :=
  times.foldl
    (fun acc now =>
      let r := should_trigger_alert alert_cooldown acc.2 alert_type now
      (if r.1 then acc.1 ++ [now] else acc.1, r.2))
    ([], [])

/-- Thirty tick times, one per simulated second. -/
def ticks30 : List ℚ :=
  [1, 2, 3, 4, 5, 6, 7, 8, 9, 10, 11, 12, 13, 14, 15,
   16, 17, 18, 19, 20, 21, 22, 23, 24, 25, 26, 27, 28, 29, 30]

/-- The high-voltage branch condition of `check_alerts` (app.py line 813):
`data["voltage"] > self.voltage_threshold`, a strict comparison. -/
def check_high_voltage (data : Reading) (voltage_threshold : ℚ) : Bool :=
  decide (data.voltage > voltage_threshold)

/-- `budget_usage` from `check_alerts` (app.py line 836):
`(energy_consumption / energy_budget) * 100 if energy_budget > 0 else 0`. -/
def budget_usage (energy_consumption energy_budget : ℚ) : ℚ :=
  if 0 < energy_budget then energy_consumption / energy_budget * 100 else 0

/-- The budget usage expressed as a fraction of the budget rather than a
percentage (the quantity named `budgetUsageFraction` in the spec). -/
def budgetUsageFraction (energy_consumption energy_budget : ℚ) : ℚ :=
  budget_usage energy_consumption energy_budget / 100

/-- The two tiered budget alert kinds of `check_alerts`. -/
inductive BudgetAlertKind
  | budgetExceeded
  | budgetWarning
deriving DecidableEq, Repr

/-- The budget branch of `check_alerts` (app.py lines 836-845):
`budget_usage >= 100` logs an error-level budget-exceeded alert, else
`budget_usage >= 90` logs a warning-level budget warning, else nothing. -/
def check_budget_alert (energy_consumption energy_budget : ℚ) :
    Option (BudgetAlertKind × Severity) :=
  let usage := budget_usage energy_consumption energy_budget
  if 100 ≤ usage then some (BudgetAlertKind.budgetExceeded, Severity.error)
  else if 90 ≤ usage then some (BudgetAlertKind.budgetWarning, Severity.warning)
  else none

/-! ### Helper lemmas -/

lemma dequePush_full_length (xs : List ℚ) (x : ℚ)
    (h : xs.length = MAX_DATA_POINTS) :
    (dequePush MAX_DATA_POINTS xs x).length = MAX_DATA_POINTS := by
  rw [dequePush, if_pos h.ge]
  simp only [List.length_append, List.length_tail, List.length_cons,
    List.length_nil]
  rw [h]
  decide

/-- All four buffers hold exactly `MAX_DATA_POINTS` samples. -/
def bufLens (st : SystemState) : Prop :=
  st.voltage_data.length = MAX_DATA_POINTS ∧
  st.current_data.length = MAX_DATA_POINTS ∧
  st.power_data.length = MAX_DATA_POINTS ∧
  st.energy_data.length = MAX_DATA_POINTS

lemma bufLens_applyOp (st : SystemState) (op : Op) (h : bufLens st) :
    bufLens (applyOp st op) := by
  obtain ⟨h1, h2, h3, h4⟩ := h
  cases op with
  | tick v c p =>
      exact ⟨dequePush_full_length _ _ h1, dequePush_full_length _ _ h2,
             dequePush_full_length _ _ h3, dequePush_full_length _ _ h4⟩
  | clearData =>
      refine ⟨?_, ?_, ?_, ?_⟩ <;> simp [applyOp, clear_data]
  | emergencyShutdown => exact ⟨h1, h2, h3, h4⟩
  | setLoadActive name b => exact ⟨h1, h2, h3, h4⟩
  | setLoadCurrent name c => exact ⟨h1, h2, h3, h4⟩
  | setLoadPowerFactor name pf => exact ⟨h1, h2, h3, h4⟩
  | resetToDefaults => exact ⟨h1, h2, h3, h4⟩
  | loadConfig cfg => exact ⟨h1, h2, h3, h4⟩

lemma bufLens_foldl (ops : List Op) (st : SystemState) (h : bufLens st) :
    bufLens (ops.foldl applyOp st) := by
  induction ops generalizing st with
  | nil => exact h
  | cons op rest ih => exact ih _ (bufLens_applyOp st op h)

lemma bufLens_init : bufLens initState := by
  refine ⟨?_, ?_, ?_, ?_⟩ <;> simp [initState]

lemma clamp_power_nonneg (v c p : ℚ) : 0 ≤ (clampReading v c p).power :=
  le_max_left 0 _

lemma energy_this_interval_nonneg (p : ℚ) (hp : 0 ≤ p) :
    0 ≤ energy_this_interval p := by
  rw [energy_this_interval, UPDATE_INTERVAL]
  exact mul_nonneg (div_nonneg hp (by norm_num)) (by norm_num)

/-! ### Claim C1 (corrected) -/

/-- Claim C1, counterexample: the tick accumulates
`energy_this_interval`, which is computed from the fixed nominal
`UPDATE_INTERVAL` and therefore differs from the spec formula
`(power_W / 1000) * (elapsedSeconds / 3600)` at a tick whose actual
wall-clock delta was 1 second (a late tick). -/
theorem C1_counterexample :
    (applyOp initState (Op.tick 230 50 11000)).energy_consumption =
      initState.energy_consumption + energy_this_interval 11000 ∧
    energy_this_interval 11000 ≠ specIncrementKWh 11000 1 := by
  constructor
  · show initState.energy_consumption +
        energy_this_interval (clampReading 230 50 11000).power =
      initState.energy_consumption + energy_this_interval 11000
    norm_num [clampReading]
  · rw [energy_this_interval, specIncrementKWh, UPDATE_INTERVAL]
    norm_num

/-- Claim C1, amended: the per-tick energy increment equals
`(power_W / 1000) * (UPDATE_INTERVAL / 3600)` with the fixed nominal
interval `UPDATE_INTERVAL = 0.5` seconds, independent of the actual
wall-clock delta since the previous tick; a late or skipped tick
therefore under-counts. -/
theorem C1_increment_nominal (st : SystemState) (v c p : ℚ) :
    UPDATE_INTERVAL = 1/2 ∧
    (applyOp st (Op.tick v c p)).energy_consumption =
      st.energy_consumption +
        ((clampReading v c p).power / 1000) * (UPDATE_INTERVAL / 3600) :=
  ⟨rfl, rfl⟩

/-! ### Claim C6 (corrected) -/

/-- Claim C6, counterexample: `load_config` adopts a persisted
`voltage_threshold` of 1000 (outside the documented range [200,400]) and an
`energy_budget` of 7 (outside [100,50000]) verbatim, with no clamping. -/
theorem C6_counterexample :
    (load_config initState
      { emptySavedConfig with voltage_threshold := some 1000 }).voltage_threshold
      = 1000 ∧
    ¬ ((1000 : ℚ) ≤ 400) ∧
    (load_config initState
      { emptySavedConfig with energy_budget := some 7 }).energy_budget = 7 ∧
    ¬ ((100 : ℚ) ≤ 7) :=
  ⟨rfl, by norm_num, rfl, by norm_num⟩

/-- Claim C6, amended: `load_config` applies no range clamping: any value
present in the persisted configuration is adopted verbatim (even outside the
documented ranges), and every missing field falls back to its coded default
(thresholds 250 / 150 / 30000 / 1000, tariff rates and load profiles to the
prior in-memory values, booleans to true, cooldown to 10). -/
theorem C6_load_verbatim_and_defaults :
    (∀ (st : SystemState) (cfg : SavedConfig) (v : ℚ),
        cfg.voltage_threshold = some v →
        (load_config st cfg).voltage_threshold = v) ∧
    (∀ (st : SystemState) (cfg : SavedConfig) (v : ℚ),
        cfg.energy_budget = some v → (load_config st cfg).energy_budget = v) ∧
    (∀ st : SystemState,
        (load_config st emptySavedConfig).voltage_threshold = 250 ∧
        (load_config st emptySavedConfig).current_threshold = 150 ∧
        (load_config st emptySavedConfig).power_threshold = 30000 ∧
        (load_config st emptySavedConfig).energy_budget = 1000 ∧
        (load_config st emptySavedConfig).tariff_peak = st.tariff_peak ∧
        (load_config st emptySavedConfig).tariff_off_peak = st.tariff_off_peak ∧
        (load_config st emptySavedConfig).tariff_shoulder = st.tariff_shoulder ∧
        (load_config st emptySavedConfig).load_profiles = st.load_profiles ∧
        (load_config st emptySavedConfig).logging_enabled = true ∧
        (load_config st emptySavedConfig).alert_sounds = true ∧
        (load_config st emptySavedConfig).voice_alerts = true ∧
        (load_config st emptySavedConfig).alert_cooldown = 10) := by
  refine ⟨?_, ?_, ?_⟩
  · intro st cfg v h
    simp [load_config, h]
  · intro st cfg v h
    simp [load_config, h]
  · intro st
    exact ⟨rfl, rfl, rfl, rfl, rfl, rfl, rfl, rfl, rfl, rfl, rfl, rfl⟩

/-- Witness for `C6_load_verbatim_and_defaults` at a concrete
configuration. -/
theorem C6_witness :
    (load_config initState
      { emptySavedConfig with voltage_threshold := some 350 }).voltage_threshold
      = 350 :=
  C6_load_verbatim_and_defaults.1 initState
    { emptySavedConfig with voltage_threshold := some 350 } 350 rfl

/-! ### Claim C7 (confirmed) -/

/-- Claim C7: saving the configuration and loading it back (into any prior
in-memory state) reproduces every configuration field: the four thresholds,
the three tariff rates, the load profiles, the three boolean settings and
the alert cooldown. -/
theorem C7_save_load_round_trip (st prior : SystemState) :
    (load_config prior (save_config st)).voltage_threshold = st.voltage_threshold ∧
    (load_config prior (save_config st)).current_threshold = st.current_threshold ∧
    (load_config prior (save_config st)).power_threshold = st.power_threshold ∧
    (load_config prior (save_config st)).energy_budget = st.energy_budget ∧
    (load_config prior (save_config st)).tariff_peak = st.tariff_peak ∧
    (load_config prior (save_config st)).tariff_off_peak = st.tariff_off_peak ∧
    (load_config prior (save_config st)).tariff_shoulder = st.tariff_shoulder ∧
    (load_config prior (save_config st)).load_profiles = st.load_profiles ∧
    (load_config prior (save_config st)).logging_enabled = st.logging_enabled ∧
    (load_config prior (save_config st)).alert_sounds = st.alert_sounds ∧
    (load_config prior (save_config st)).voice_alerts = st.voice_alerts ∧
    (load_config prior (save_config st)).alert_cooldown = st.alert_cooldown :=
  ⟨rfl, rfl, rfl, rfl, rfl, rfl, rfl, rfl, rfl, rfl, rfl, rfl⟩

/-! ### Claim C8 (confirmed) -/

/-- Claim C8: the high-voltage rule of `check_alerts` uses a strict
greater-than comparison: a reading with voltage exactly equal to the
threshold does not satisfy it, while threshold plus 0.01 does. -/
theorem C8_high_voltage_strict (t c p : ℚ) :
    check_high_voltage { voltage := t, current := c, power := p } t = false ∧
    check_high_voltage { voltage := t + 1/100, current := c, power := p } t
      = true :=
  ⟨decide_eq_false (lt_irrefl t), decide_eq_true (by linarith)⟩

/-! ### Claim C9 (confirmed) -/

lemma budget_usage_eq (e b : ℚ) :
    budget_usage e b = 100 * budgetUsageFraction e b := by
  rw [budgetUsageFraction]
  ring

/-- Claim C9: the budget usage fraction equals
`cumulativeKWh / energyBudgetKWh`, is 0 whenever the budget is not
positive (the division is guarded), and the tiers are: fraction at least 1
yields the error-severity budget-exceeded alert; otherwise fraction at
least 0.9 yields the warning-severity budget warning; below 0.9 no budget
alert is produced. -/
theorem C9_budget_guard_and_tiers :
    (∀ e b : ℚ, b ≤ 0 → budgetUsageFraction e b = 0) ∧
    (∀ e b : ℚ, 0 < b → budgetUsageFraction e b = e / b) ∧
    (∀ e b : ℚ, 1 ≤ budgetUsageFraction e b →
        check_budget_alert e b =
          some (BudgetAlertKind.budgetExceeded, Severity.error)) ∧
    (∀ e b : ℚ, ¬ (1 ≤ budgetUsageFraction e b) →
        9/10 ≤ budgetUsageFraction e b →
        check_budget_alert e b =
          some (BudgetAlertKind.budgetWarning, Severity.warning)) ∧
    (∀ e b : ℚ, budgetUsageFraction e b < 9/10 →
        check_budget_alert e b = none) := by
  refine ⟨?_, ?_, ?_, ?_, ?_⟩
  · intro e b h
    rw [budgetUsageFraction, budget_usage, if_neg (not_lt.mpr h)]
    norm_num
  · intro e b h
    rw [budgetUsageFraction, budget_usage, if_pos h, mul_div_assoc]
    norm_num
  · intro e b h
    have hu : (100 : ℚ) ≤ budget_usage e b := by
      rw [budget_usage_eq]
      linarith
    rw [check_budget_alert]
    simp only [if_pos hu]
  · intro e b h1 h2
    have hu1 : ¬ ((100 : ℚ) ≤ budget_usage e b) := by
      rw [budget_usage_eq]
      intro hc
      exact h1 (by linarith)
    have hu2 : (90 : ℚ) ≤ budget_usage e b := by
      rw [budget_usage_eq]
      linarith
    rw [check_budget_alert]
    simp only [if_neg hu1, if_pos hu2]
  · intro e b h
    have hu1 : ¬ ((100 : ℚ) ≤ budget_usage e b) := by
      rw [budget_usage_eq]
      intro hc
      linarith
    have hu2 : ¬ ((90 : ℚ) ≤ budget_usage e b) := by
      rw [budget_usage_eq]
      intro hc
      linarith
    rw [check_budget_alert]
    simp only [if_neg hu1, if_neg hu2]

/-- Witness for `C9_budget_guard_and_tiers` at concrete energy and budget
values. -/
theorem C9_witness :
    budgetUsageFraction 0 (-5) = 0 ∧
    budgetUsageFraction 300 1000 = 300 / 1000 ∧
    check_budget_alert 1500 1000 =
      some (BudgetAlertKind.budgetExceeded, Severity.error) ∧
    check_budget_alert 950 1000 =
      some (BudgetAlertKind.budgetWarning, Severity.warning) ∧
    check_budget_alert 100 1000 = none :=
  ⟨C9_budget_guard_and_tiers.1 0 (-5) (by norm_num),
   C9_budget_guard_and_tiers.2.1 300 1000 (by norm_num),
   C9_budget_guard_and_tiers.2.2.1 1500 1000
     (by norm_num [budgetUsageFraction, budget_usage]),
   C9_budget_guard_and_tiers.2.2.2.1 950 1000
     (by norm_num [budgetUsageFraction, budget_usage])
     (by norm_num [budgetUsageFraction, budget_usage]),
   C9_budget_guard_and_tiers.2.2.2.2 100 1000
     (by norm_num [budgetUsageFraction, budget_usage])⟩

/-! ### Claim C3 (confirmed) -/

/-- Claim C3: `energy_consumption` never decreases under any operation
other than `clearData` (in particular it is monotonically non-decreasing
across every sequence of ticks), and `clearData` resets it to exactly 0. -/
theorem C3_energy_monotone :
    (∀ (st : SystemState) (op : Op), op ≠ Op.clearData →
        st.energy_consumption ≤ (applyOp st op).energy_consumption) ∧
    (∀ st : SystemState, (applyOp st Op.clearData).energy_consumption = 0) ∧
    (∀ (st : SystemState) (ops : List Op), Op.clearData ∉ ops →
        st.energy_consumption ≤ (ops.foldl applyOp st).energy_consumption) := by
  have hstep : ∀ (st : SystemState) (op : Op), op ≠ Op.clearData →
      st.energy_consumption ≤ (applyOp st op).energy_consumption := by
    intro st op hne
    cases op with
    | tick v c p =>
        have hnn := energy_this_interval_nonneg _ (clamp_power_nonneg v c p)
        show st.energy_consumption ≤
          st.energy_consumption + energy_this_interval (clampReading v c p).power
        linarith
    | clearData => exact absurd rfl hne
    | emergencyShutdown => exact le_refl _
    | setLoadActive name b => exact le_refl _
    | setLoadCurrent name c => exact le_refl _
    | setLoadPowerFactor name pf => exact le_refl _
    | resetToDefaults => exact le_refl _
    | loadConfig cfg => exact le_refl _
  refine ⟨hstep, fun st => rfl, ?_⟩
  intro st ops
  induction ops generalizing st with
  | nil => intro _; exact le_refl _
  | cons op rest ih =>
      intro hnotin
      have h1 : op ≠ Op.clearData := by
        intro h
        subst h
        exact hnotin (List.mem_cons_self _ _)
      have h2 : Op.clearData ∉ rest := fun h => hnotin (List.mem_cons_of_mem _ h)
      exact (hstep st op h1).trans (ih _ h2)

/-- Witness for `C3_energy_monotone` at a concrete tick from the initial
state. -/
theorem C3_witness :
    initState.energy_consumption ≤
      (applyOp initState (Op.tick 230 50 11000)).energy_consumption ∧
    (applyOp initState Op.clearData).energy_consumption = 0 ∧
    initState.energy_consumption ≤
      ([Op.tick 230 50 11000, Op.emergencyShutdown].foldl
        applyOp initState).energy_consumption :=
  ⟨C3_energy_monotone.1 initState (Op.tick 230 50 11000) (by decide),
   C3_energy_monotone.2.1 initState,
   C3_energy_monotone.2.2 initState [Op.tick 230 50 11000, Op.emergencyShutdown]
     (by decide)⟩

/-! ### Claim C4 (confirmed) -/

/-- Claim C4: after any sequence of operations from construction, each of
the four time-series buffers has length at most the capacity
`MAX_DATA_POINTS = 200` and all four have equal length; and a push onto a
buffer at capacity evicts exactly the oldest (leftmost) entry, strict
FIFO. -/
theorem C4_buffer_invariant :
    (∀ ops : List Op,
        (runOps ops).voltage_data.length ≤ MAX_DATA_POINTS ∧
        (runOps ops).current_data.length = (runOps ops).voltage_data.length ∧
        (runOps ops).power_data.length = (runOps ops).voltage_data.length ∧
        (runOps ops).energy_data.length = (runOps ops).voltage_data.length) ∧
    (∀ (xs : List ℚ) (x : ℚ), xs.length = MAX_DATA_POINTS →
        dequePush MAX_DATA_POINTS xs x = xs.tail ++ [x]) := by
  constructor
  · intro ops
    obtain ⟨h1, h2, h3, h4⟩ := bufLens_foldl ops initState bufLens_init
    exact ⟨h1.le, h2.trans h1.symm, h3.trans h1.symm, h4.trans h1.symm⟩
  · intro xs x h
    rw [dequePush, if_pos h.ge]

/-- Witness for `C4_buffer_invariant`: pushing onto a full buffer drops the
head. -/
theorem C4_witness :
    dequePush MAX_DATA_POINTS (List.replicate MAX_DATA_POINTS (0 : ℚ)) 5 =
      (List.replicate MAX_DATA_POINTS (0 : ℚ)).tail ++ [5] :=
  C4_buffer_invariant.2 (List.replicate MAX_DATA_POINTS (0 : ℚ)) 5 (by simp)

/-! ### Claim C10 (confirmed) -/

/-- Claim C10: the four buffers are seeded completely full at construction
(220 V, 50 A, 11000 W, 0 kWh times 200) and by `clear_data` (230 V, 50 A,
11500 W, 0 kWh times 200), and after any sequence of operations every
buffer still holds exactly 200 entries, never fewer. -/
theorem C10_buffers_seeded_full :
    initState.voltage_data = List.replicate MAX_DATA_POINTS 220 ∧
    initState.current_data = List.replicate MAX_DATA_POINTS 50 ∧
    initState.power_data = List.replicate MAX_DATA_POINTS 11000 ∧
    initState.energy_data = List.replicate MAX_DATA_POINTS 0 ∧
    (∀ st : SystemState,
        (applyOp st Op.clearData).voltage_data =
          List.replicate MAX_DATA_POINTS 230 ∧
        (applyOp st Op.clearData).current_data =
          List.replicate MAX_DATA_POINTS 50 ∧
        (applyOp st Op.clearData).power_data =
          List.replicate MAX_DATA_POINTS 11500 ∧
        (applyOp st Op.clearData).energy_data =
          List.replicate MAX_DATA_POINTS 0) ∧
    (∀ ops : List Op,
        (runOps ops).voltage_data.length = MAX_DATA_POINTS ∧
        (runOps ops).current_data.length = MAX_DATA_POINTS ∧
        (runOps ops).power_data.length = MAX_DATA_POINTS ∧
        (runOps ops).energy_data.length = MAX_DATA_POINTS) :=
  ⟨rfl, rfl, rfl, rfl, fun _ => ⟨rfl, rfl, rfl, rfl⟩,
   fun ops => bufLens_foldl ops initState bufLens_init⟩

/-! ### Claim C2 (confirmed) -/

lemma lookup_dictSet_self (m : List (String × ℚ)) (k : String) (v : ℚ) :
    (dictSet m k v).lookup k = some v := by
  induction m with
  | nil => simp [dictSet, List.lookup]
  | cons a rest ih =>
      obtain ⟨k1, v1⟩ := a
      rw [dictSet]
      by_cases h : k1 = k
      · rw [if_pos h]
        simp [List.lookup]
      · rw [if_neg h]
        have hbeq : (k == k1) = false := beq_eq_false_iff_ne.mpr (Ne.symm h)
        simp [List.lookup, hbeq, ih]

/-- Claim C2: the cooldown gate of `should_trigger_alert`: for any alert
kind, the very first evaluation always fires and records the time; with a
recorded timestamp, it fires exactly when `now - last >= alert_cooldown`;
every firing updates the recorded timestamp for that kind to `now`; a
suppressed evaluation leaves the dictionary unchanged.  Consequently, with
a threshold perpetually violated at one tick per second and cooldown 10 s,
over 30 simulated seconds the alert fires exactly three times, at ticks 1,
11 and 21. -/
theorem C2_cooldown_gate :
    (∀ (cd : ℚ) (m : List (String × ℚ)) (k : String) (now : ℚ),
        m.lookup k = none →
        should_trigger_alert cd m k now = (true, dictSet m k now)) ∧
    (∀ (cd : ℚ) (m : List (String × ℚ)) (k : String) (now t : ℚ),
        m.lookup k = some t →
        ((should_trigger_alert cd m k now).1 = true ↔ cd ≤ now - t)) ∧
    (∀ (cd : ℚ) (m : List (String × ℚ)) (k : String) (now : ℚ),
        (should_trigger_alert cd m k now).1 = true →
        (should_trigger_alert cd m k now).2.lookup k = some now) ∧
    (∀ (cd : ℚ) (m : List (String × ℚ)) (k : String) (now : ℚ),
        (should_trigger_alert cd m k now).1 = false →
        (should_trigger_alert cd m k now).2 = m) ∧
    (cooldownRun 10 "high_voltage" ticks30).1 = [1, 11, 21] ∧
    (cooldownRun 10 "high_voltage" ticks30).1.length = 3 := by
  have hrun : (cooldownRun 10 "high_voltage" ticks30).1 = [1, 11, 21] := by
    norm_num [cooldownRun, ticks30, should_trigger_alert, dictSet, List.lookup]
  refine ⟨?_, ?_, ?_, ?_, hrun, by rw [hrun]; rfl⟩
  · intro cd m k now h
    simp only [should_trigger_alert, h]
  · intro cd m k now t h
    simp only [should_trigger_alert, h]
    split_ifs with hle
    · simpa using hle
    · simpa using hle
  · intro cd m k now hfire
    cases hm : m.lookup k with
    | none =>
        simp only [should_trigger_alert, hm]
        exact lookup_dictSet_self m k now
    | some t =>
        simp only [should_trigger_alert, hm] at hfire ⊢
        by_cases hle : cd ≤ now - t
        · rw [if_pos hle]
          exact lookup_dictSet_self m k now
        · rw [if_neg hle] at hfire
          simp at hfire
  · intro cd m k now hfalse
    cases hm : m.lookup k with
    | none =>
        simp only [should_trigger_alert, hm] at hfalse
        simp at hfalse
    | some t =>
        simp only [should_trigger_alert, hm] at hfalse ⊢
        by_cases hle : cd ≤ now - t
        · rw [if_pos hle] at hfalse
          simp at hfalse
        · rw [if_neg hle]

/-- Witness for `C2_cooldown_gate` at concrete dictionaries and times. -/
theorem C2_witness :
    should_trigger_alert 10 [] "high_voltage" 1 =
      (true, dictSet [] "high_voltage" 1) ∧
    ((should_trigger_alert 10 [("high_voltage", 1)] "high_voltage" 11).1 = true
      ↔ (10 : ℚ) ≤ 11 - 1) ∧
    (should_trigger_alert 10 [("high_voltage", 1)] "high_voltage" 11).2.lookup
      "high_voltage" = some 11 ∧
    (should_trigger_alert 10 [("high_voltage", 1)] "high_voltage" 5).2 =
      [("high_voltage", 1)] :=
  ⟨C2_cooldown_gate.1 10 [] "high_voltage" 1 rfl,
   C2_cooldown_gate.2.1 10 [("high_voltage", 1)] "high_voltage" 11 1 rfl,
   C2_cooldown_gate.2.2.1 10 [("high_voltage", 1)] "high_voltage" 11
     (by norm_num [should_trigger_alert, List.lookup]),
   C2_cooldown_gate.2.2.2.1 10 [("high_voltage", 1)] "high_voltage" 5
     (by norm_num [should_trigger_alert, List.lookup])⟩

/-! ### Claim C5 (corrected) -/

lemma errorMessages_append (l1 l2 : List (Severity × String)) :
    errorMessages (l1 ++ l2) = errorMessages l1 ++ errorMessages l2 := by
  simp [errorMessages, List.filter_append]

lemma errorMessages_info_map {α : Type} (l : List α) (f : α → String) :
    errorMessages (l.map fun a => (Severity.info, f a)) = [] := by
  induction l with
  | nil => rfl
  | cons a rest ih =>
      simp only [List.map_cons]
      rw [show errorMessages
          ((Severity.info, f a) :: rest.map fun a => (Severity.info, f a)) =
          errorMessages (rest.map fun a => (Severity.info, f a)) from rfl]
      exact ih

/-- A one-active-load profile set. -/
def psOne : List (String × LoadProfile) :=
  [("Lighting", { active := true, current := 50, power_factor := 9/10 })]

/-- A two-active-load profile set. -/
def psTwo : List (String × LoadProfile) :=
  [("Lighting", { active := true, current := 50, power_factor := 9/10 }),
   ("Computers", { active := true, current := 80, power_factor := 19/20 })]

/-- Claim C5, counterexample: in the loadf1.py variant the single
error-severity alert produced by `emergency_shutdown` has the same fixed
message for prior states with one and with two active loads, and that
message contains no digit at all, so it cannot report the count of loads
that were active immediately prior. -/
theorem C5_counterexample :
    activeCount psOne = 1 ∧
    activeCount psTwo = 2 ∧
    errorMessages (loadf1_emergency_shutdown psOne).2 =
      errorMessages (loadf1_emergency_shutdown psTwo).2 ∧
    errorMessages (loadf1_emergency_shutdown psOne).2 =
      ["EMERGENCY SHUTDOWN ACTIVATED"] ∧
    ("EMERGENCY SHUTDOWN ACTIVATED".toList.all fun ch => ! ch.isDigit) = true := by
  decide

/-- Claim C5, amended: in both variants `emergency_shutdown` leaves every
load profile inactive and logs exactly one error-severity alert; in the
app.py variant that alert message reports the count of loads active
immediately prior, while in the loadf1.py variant it is the fixed text
"EMERGENCY SHUTDOWN ACTIVATED" (the loadf1.py variant additionally logs one
info-severity message per load it turns off). -/
theorem C5_shutdown_amended :
    (∀ ps : List (String × LoadProfile),
        (∀ q ∈ (emergency_shutdown ps).1, q.2.active = false) ∧
        (emergency_shutdown ps).2 =
          [(Severity.error,
            "EMERGENCY SHUTDOWN: " ++ toString (activeCount ps) ++
              " loads deactivated")]) ∧
    (∀ ps : List (String × LoadProfile),
        (∀ q ∈ (loadf1_emergency_shutdown ps).1, q.2.active = false) ∧
        errorMessages (loadf1_emergency_shutdown ps).2 =
          ["EMERGENCY SHUTDOWN ACTIVATED"]) := by
  constructor
  · intro ps
    constructor
    · intro q hq
      rcases List.mem_map.1 hq with ⟨a, _, rfl⟩
      rfl
    · rfl
  · intro ps
    constructor
    · intro q hq
      rcases List.mem_map.1 hq with ⟨a, _, rfl⟩
      rfl
    · show errorMessages
        (((ps.filter fun q => q.2.active).map
            fun q => (Severity.info, "Load " ++ q.1 ++ " turned OFF")) ++
          [(Severity.error, "EMERGENCY SHUTDOWN ACTIVATED")]) =
        ["EMERGENCY SHUTDOWN ACTIVATED"]
      rw [errorMessages_append, errorMessages_info_map]
      rfl

/-- Witness for `C5_shutdown_amended` at a concrete profile set. -/
theorem C5_witness :
    (("Lighting",
        ({ active := false, current := 50, power_factor := 9/10 } :
          LoadProfile)) : String × LoadProfile).2.active = false ∧
    (emergency_shutdown psTwo).2 =
      [(Severity.error,
        "EMERGENCY SHUTDOWN: " ++ toString (activeCount psTwo) ++
          " loads deactivated")] ∧
    errorMessages (loadf1_emergency_shutdown psTwo).2 =
      ["EMERGENCY SHUTDOWN ACTIVATED"] :=
  ⟨(C5_shutdown_amended.1 psOne).1
      ("Lighting", { active := false, current := 50, power_factor := 9/10 })
      (List.mem_cons_self _ _),
   (C5_shutdown_amended.1 psTwo).2,
   (C5_shutdown_amended.2 psTwo).2⟩
